import Mathlib

/-!
Verification of the tunnel-process supervisor in
`rootfs/usr/local/bin/print_api.py` (ha-printer-relay).

The Python module is shallowly embedded: pure computations (config
loading/saving, URL-pattern search, request authentication) become Lean
functions; the stateful tunnel lifecycle (`start_tunnel`, `stop_tunnel`,
`is_tunnel_running`, the `capture_url` watcher thread) is embedded as
straight-line lists of primitive actions over an explicit system state,
with an interleaving scheduler so that races between the watcher thread
and the request handlers can be exhibited or excluded.

File-system state is modelled at the granularity the code manipulates it:
each file the tunnel code touches is one field.  `open(path, 'w')`
truncates the file at open time and the short content is flushed at
close, so a watcher write is two observable steps (truncate, then flush).
-/

namespace PrintApi

/-- Python `str.strip()` (whitespace from both ends), as used on the URL
file content and on supplied configuration values. -/
def pyStrip (s : String) : String :=
  String.mk (((s.data.dropWhile Char.isWhitespace).reverse.dropWhile
    Char.isWhitespace).reverse)

/-! ## URL pattern matching

`start_tunnel` chooses one of two regular expressions:

* LocalTunnel:            `https://[a-zA-Z0-9-]*\.loca\.lt`
* Cloudflare Quick:       `https://[a-zA-Z0-9-]+\.trycloudflare\.com`

Both have the shape: literal `https://`, a run of characters from the
class `[a-zA-Z0-9-]` (possibly empty for LocalTunnel), then a literal
suffix beginning with `.`.  Since `.` is not in the character class, the
greedy run never needs to backtrack: a match at a given start position
exists iff the literal suffix begins exactly where the maximal run ends.
`re.search` returns the leftmost such match; `match.group(0)` is the
matched substring. -/

inductive UrlPattern where
  | localtunnel
  | cloudflareQuick
deriving DecidableEq, Repr

/-- The character class `[a-zA-Z0-9-]` of both URL patterns. -/
def isLabelChar (c : Char) : Bool :=
  c.isAlpha || c.isDigit || c == '-'

/-- Literal suffix of each pattern (after the label run). -/
def patSuffix : UrlPattern → List Char
  | .localtunnel => ".loca.lt".data
  | .cloudflareQuick => ".trycloudflare.com".data

/-- Minimum label length: `*` for LocalTunnel, `+` for Cloudflare Quick. -/
def patMinLabel : UrlPattern → Nat
  | .localtunnel => 0
  | .cloudflareQuick => 1

/-- Split a character list into its maximal leading run of label
characters and the remainder. -/
def takeLabelRun : List Char → List Char × List Char
  | [] => ([], [])
  | c :: cs =>
      if isLabelChar c then
        let p := takeLabelRun cs
        (c :: p.1, p.2)
      else ([], c :: cs)

/-- Does `p` occur at the start of `l`? -/
def listStartsWith : List Char → List Char → Bool
  | [], _ => true
  | _ :: _, [] => false
  | p :: ps, c :: cs => p == c && listStartsWith ps cs

def httpsLit : List Char := "https://".data

/-- Try to match the pattern exactly at the start of `cs`; on success
return the matched characters (the value of `match.group(0)`). -/
def matchAt (pat : UrlPattern) (cs : List Char) : Option (List Char) :=
  if listStartsWith httpsLit cs then
    let rest := cs.drop httpsLit.length
    let p := takeLabelRun rest
    if patMinLabel pat ≤ p.1.length && listStartsWith (patSuffix pat) p.2 then
      some (httpsLit ++ p.1 ++ patSuffix pat)
    else none
  else none

/-- Leftmost search, as `re.search`: try every start position in order. -/
def reSearchChars (pat : UrlPattern) : List Char → Option (List Char)
  | [] => none
  | c :: cs =>
      match matchAt pat (c :: cs) with
      | some m => some m
      | none => reSearchChars pat cs

/-- `re.search(url_pattern, line)` followed by `match.group(0)`. -/
def reSearch (pat : UrlPattern) (line : String) : Option String :=
  (reSearchChars pat line.data).map String.mk

/-! ## Configuration records and the file system -/

/-- The persisted tunnel configuration dictionary
(`/data/tunnel_config.json` has exactly these keys). -/
structure TunnelConfig where
  enabled : Bool
  provider : String
  tunnel_token : String
  tunnel_url : String
deriving DecidableEq, Repr

/-- The defaults `load_tunnel_config` starts from. -/
def defaultTunnelConfig : TunnelConfig :=
  { enabled := false, provider := "localtunnel", tunnel_token := "", tunnel_url := "" }

def TUNNEL_PROVIDERS : List String :=
  ["localtunnel", "cloudflare_quick", "cloudflare_named"]

/-- The files the tunnel code reads and writes.  `none` means the file is
absent.  `tunnelDirConfig` is the parsed `enabled` value of
`/data/tunnel/tunnel_config.json` (the file `is_tunnel_enabled` reads;
a file that exists but is unparseable or lacks the key behaves as
`some false`, since `is_tunnel_enabled` then returns `False`). -/
structure FS where
  /-- `/data/tunnel_config.json`, parsed (reads use per-key defaults). -/
  tunnelConfigFile : Option TunnelConfig
  /-- the `tunnel` section of `/data/options.json`, parsed. -/
  optionsTunnel : Option TunnelConfig
  /-- content of `/data/tunnel/tunnel_url.txt`. -/
  urlFile : Option String
  /-- does `/data/tunnel/enabled` exist? -/
  enabledMarker : Bool
  /-- parsed `enabled` of `/data/tunnel/tunnel_config.json`. -/
  tunnelDirConfig : Option Bool
  /-- content of `/data/tunnel/tunnel_token`. -/
  tokenFile : Option String
deriving DecidableEq, Repr

/-- `load_tunnel_config()`: defaults, overridden by the dashboard config
file; if still not enabled, overridden by the addon options; finally the
dynamically generated URL file is always consulted, and a content that
strips to a non-empty string forces `tunnel_url` and `enabled := true`. -/
def load_tunnel_config (fs : FS) : TunnelConfig :=
  let c0 := defaultTunnelConfig
  let c1 :=
    match fs.tunnelConfigFile with
    | some d =>
        { c0 with enabled := d.enabled, provider := d.provider,
                  tunnel_token := d.tunnel_token }
    | none => c0
  let c2 :=
    if c1.enabled then c1
    else
      match fs.optionsTunnel with
      | some t =>
          { c1 with enabled := t.enabled, provider := t.provider,
                    tunnel_token := t.tunnel_token }
      | none => c1
  match fs.urlFile with
  | some s =>
      let u := pyStrip s
      if u ≠ "" then { c2 with tunnel_url := u, enabled := true } else c2
  | none => c2

/-- The JSON body of a `POST /api/config/remote` request: each key may be
absent.  A present key carries the supplied string (Python coerces a
falsy value to `''` before stripping, which `pyStrip` also yields). -/
structure UpdateData where
  enabled : Option Bool
  provider : Option String
  tunnel_url : Option String
  tunnel_token : Option String

/-- The "Update with new values" block of `save_remote_config`: apply
each supplied key over the loaded config (an invalid supplied provider
falls back to `localtunnel`). -/
def apply_update_fields (d : UpdateData) (c : TunnelConfig) : TunnelConfig :=
  let c := match d.enabled with
    | some b => { c with enabled := b }
    | none => c
  let c := match d.provider with
    | some p =>
        { c with provider := if TUNNEL_PROVIDERS.contains p then p else "localtunnel" }
    | none => c
  let c := match d.tunnel_url with
    | some u => { c with tunnel_url := pyStrip u }
    | none => c
  match d.tunnel_token with
  | some t => { c with tunnel_token := pyStrip t }
  | none => c

/-- The configuration-mutation core of `save_remote_config`: apply the
supplied keys over the loaded config, then auto-set the provider to
`cloudflare_named` whenever the resulting token is non-empty and the
provider is not already `cloudflare_named`. -/
def save_remote_config_update (d : UpdateData) (c0 : TunnelConfig) : TunnelConfig :=
  let c := apply_update_fields d c0
  if c.tunnel_token ≠ "" && !(["cloudflare_named"].contains c.provider) then
    { c with provider := "cloudflare_named" }
  else c

/-- `save_remote_config` (`POST /api/config/remote`): load, update, write
the config file, then maintain the marker/token/URL files. -/
def save_remote_config (d : UpdateData) (fs : FS) : FS :=
  let c := save_remote_config_update d (load_tunnel_config fs)
  let fs := { fs with tunnelConfigFile := some c }
  if c.enabled then
    let fs := { fs with enabledMarker := true }
    if c.tunnel_token ≠ "" then { fs with tokenFile := some c.tunnel_token }
    else { fs with tokenFile := none }
  else
    { fs with enabledMarker := false, urlFile := none }

/-! ## Authentication -/

/-- `is_tunnel_enabled()`: the `enabled` value of
`/data/tunnel/tunnel_config.json` when that file exists, else whether the
tunnel URL file exists. -/
def is_tunnel_enabled (fs : FS) : Bool :=
  match fs.tunnelDirConfig with
  | some b => b
  | none => fs.urlFile.isSome

/-- The request headers `require_auth` inspects. -/
structure HttpRequest where
  /-- the `X-Ingress-Path` header. -/
  ingressPath : Option String
  /-- the `Authorization` header (default `''`). -/
  authHeader : String

inductive AuthOutcome where
  /-- the wrapped handler runs. -/
  | allowed
  /-- 401, invalid or expired token. -/
  | invalidToken
  /-- 401, authentication required. -/
  | unauthenticated
deriving DecidableEq, Repr

/-- The `require_auth` decorator.  `validate` abstracts
`validate_ha_token` (a network call). -/
def require_auth (req : HttpRequest) (fs : FS) (validate : String → Bool) :
    AuthOutcome :=
  if req.ingressPath.isSome then .allowed
  else if is_tunnel_enabled fs then .allowed
  else if listStartsWith "Bearer ".data req.authHeader.data then
    if validate (String.mk (req.authHeader.data.drop 7)) then .allowed
    else .invalidToken
  else .unauthenticated

/-! ## The tunnel lifecycle: system state, primitive actions, scheduler

`start_tunnel` / `stop_tunnel` / `is_tunnel_running` share the module
globals `_tunnel_process` and `_tunnel_lock`; `capture_url` runs on a
separate daemon thread.  Each function is transcribed as a straight-line
list of primitive actions; an explicit schedule interleaves the threads.
An action either transforms the state or — for acquiring a lock that is
already held — blocks, which the scheduler reports as `none` (a schedule
is legal only where every selected action can step). -/

/-- The mutable state shared by the tunnel threads: the files, the
`_tunnel_process` global (as a pid), the set of live pids (those whose
`poll()` is `None`), whether `_tunnel_lock` is held, and the last value a
modelled concurrent reader saw when it read the URL file. -/
structure Sys where
  fs : FS
  /-- the `_tunnel_process` module global. -/
  tunnelProcess : Option Nat
  /-- pids that have not exited. -/
  live : List Nat
  /-- is `_tunnel_lock` held? -/
  lockHeld : Bool
  /-- snapshot taken by a reader's `open(TUNNEL_URL_FILE).read()`. -/
  observed : Option (Option String)
deriving DecidableEq, Repr

/-- Primitive steps of the transcribed tunnel functions. -/
inductive Act where
  /-- `_tunnel_lock.acquire()` (entering `with _tunnel_lock`). -/
  | acquire
  /-- `_tunnel_lock.release()` (leaving `with _tunnel_lock`). -/
  | release
  /-- `start_tunnel`: if `_tunnel_process` is set and live, terminate /
  wait / kill it (the reference itself is left in place). -/
  | termOwned
  /-- `stop_tunnel`: same, and additionally `_tunnel_process = None`
  (the assignment is inside the `if`, so a dead process stays recorded). -/
  | termOwnedClear
  /-- `os.remove(TUNNEL_URL_FILE)` guarded by `os.path.exists`. -/
  | removeUrlFile
  /-- `subprocess.Popen(cmd, ...)` assigned to `_tunnel_process`. -/
  | spawnTunnel (pid : Nat)
  /-- `threading.Thread(target=capture_url).start()` (no state change;
  the watcher is a separate thread in the schedule). -/
  | startWatcher
  /-- the watcher's `open(TUNNEL_URL_FILE, 'w')`: truncates on open. -/
  | truncUrlFile
  /-- the watcher's `f.write(url)` flushed at close. -/
  | flushUrlFile (u : String)
  /-- the watcher's config update: `load_tunnel_config()`, set
  `tunnel_url`, `json.dump` the whole record. -/
  | watcherUpdateConfig (u : String)
  /-- `api_start_tunnel`'s config write: load, set `enabled=True` and
  the resolved provider, dump. -/
  | startConfigWrite (provider : String)
  /-- `api_stop_tunnel`'s config write: load, set `enabled=False` and
  `tunnel_url=''`, dump. -/
  | stopConfigWrite
  /-- create `/data/tunnel/enabled`. -/
  | createEnabledMarker
  /-- remove `/data/tunnel/enabled` if it exists. -/
  | removeEnabledMarker
  /-- `_tunnel_process.poll()` (read only). -/
  | pollOwned
  /-- the `pgrep -f ...` probes (read only). -/
  | scanProcessTable
  /-- `api_stop_tunnel`'s best-effort `pkill -f ...` of externally
  started provider processes (no external processes are modelled). -/
  | pkillExternal
  /-- a concurrent reader's `open(TUNNEL_URL_FILE).read()`: snapshot the
  current file content (or its absence) into `observed`. -/
  | readUrlFile
deriving DecidableEq, Repr

/-- Semantics of one primitive action.  `none` means the action cannot
step now (only `acquire` on a held lock blocks). -/
def applyAct (a : Act) (s : Sys) : Option Sys :=
  match a with
  | .acquire => if s.lockHeld then none else some { s with lockHeld := true }
  | .release => some { s with lockHeld := false }
  | .termOwned =>
      match s.tunnelProcess with
      | some p =>
          if p ∈ s.live then some { s with live := s.live.erase p } else some s
      | none => some s
  | .termOwnedClear =>
      match s.tunnelProcess with
      | some p =>
          if p ∈ s.live then
            some { s with live := s.live.erase p, tunnelProcess := none }
          else some s
      | none => some s
  | .removeUrlFile => some { s with fs := { s.fs with urlFile := none } }
  | .spawnTunnel pid =>
      some { s with tunnelProcess := some pid, live := pid :: s.live }
  | .startWatcher => some s
  | .truncUrlFile => some { s with fs := { s.fs with urlFile := some "" } }
  | .flushUrlFile u => some { s with fs := { s.fs with urlFile := some u } }
  | .watcherUpdateConfig u =>
      let c := load_tunnel_config s.fs
      some { s with fs :=
        { s.fs with tunnelConfigFile := some { c with tunnel_url := u } } }
  | .startConfigWrite provider =>
      let c := load_tunnel_config s.fs
      let c2 := { c with enabled := true, provider := provider }
      some { s with fs := { s.fs with tunnelConfigFile := some c2 } }
  | .stopConfigWrite =>
      let c := load_tunnel_config s.fs
      let c2 := { c with enabled := false, tunnel_url := "" }
      some { s with fs := { s.fs with tunnelConfigFile := some c2 } }
  | .createEnabledMarker => some { s with fs := { s.fs with enabledMarker := true } }
  | .removeEnabledMarker => some { s with fs := { s.fs with enabledMarker := false } }
  | .pollOwned => some s
  | .scanProcessTable => some s
  | .pkillExternal => some s
  | .readUrlFile => some { s with observed := some s.fs.urlFile }

/-- Run a list of actions sequentially (a single thread, no
interleaving). -/
def runSeq : List Act → Sys → Option Sys
  | [], s => some s
  | a :: as, s => (applyAct a s).bind (runSeq as)

/-- One scheduler step: thread `i` performs its next action. -/
def stepThread (ths : List (List Act)) (i : Nat) (s : Sys) :
    Option (List (List Act) × Sys) :=
  match ths.get? i with
  | some (a :: rest) => (applyAct a s).map fun s' => (ths.set i rest, s')
  | _ => none

/-- Run an explicit interleaving: at each schedule entry the named thread
performs its next action.  `none` when the schedule is illegal (a thread
is exhausted or its next action blocks). -/
def runSched : List Nat → List (List Act) → Sys → Option Sys
  | [], _, s => some s
  | i :: is, ths, s =>
      match stepThread ths i s with
      | some (ths', s') => runSched is ths' s'
      | none => none

/-! ## The tunnel functions as action lists -/

/-- The providers `start_tunnel` can launch directly (the `if/elif`
choosing `cmd` and `url_pattern`). -/
def providerCmdSupported (p : String) : Bool :=
  p == "localtunnel" || p == "cloudflare_quick"

/-- The `url_pattern` chosen for a launchable provider. -/
def providerPattern (p : String) : UrlPattern :=
  if p == "localtunnel" then .localtunnel else .cloudflareQuick

/-- `start_tunnel(provider)`, transcribed.  Under the lock: terminate a
live owned process, clear the URL file, then (for a launchable provider)
spawn the new process — `spawn = none` models `Popen` raising — and
start the watcher thread.  The unsupported-provider and spawn-failure
paths return `False` after the lock is released. -/
def start_tunnel_prog (p : String) (spawn : Option Nat) : List Act :=
  [.acquire, .termOwned, .removeUrlFile] ++
    (if providerCmdSupported p then
      match spawn with
      | some pid => [.spawnTunnel pid, .startWatcher]
      | none => []
    else []) ++ [.release]

/-- The boolean `start_tunnel` returns. -/
def start_tunnel_ret (p : String) (spawn : Option Nat) : Bool :=
  providerCmdSupported p && spawn.isSome

/-- `capture_url` scanning the process output: the published URL (the
first line's leftmost pattern match, if any line matches) and the number
of lines read before the loop ends. -/
def capture_url_scan (pat : UrlPattern) : List String → Option String × Nat
  | [] => (none, 0)
  | l :: ls =>
      match reSearch pat l with
      | some u => (some u, 1)
      | none =>
          let p := capture_url_scan pat ls
          (p.1, p.2 + 1)

/-- The watcher thread's effects: on the first matching line it opens
and writes the URL file (truncate, then flush) and updates the config
file, then breaks; with no matching line it performs no effect. -/
def watcher_prog (pat : UrlPattern) (lines : List String) : List Act :=
  match (capture_url_scan pat lines).1 with
  | some u => [.truncUrlFile, .flushUrlFile u, .watcherUpdateConfig u]
  | none => []

/-- `stop_tunnel()`, transcribed. -/
def stop_tunnel_prog : List Act :=
  [.acquire, .termOwnedClear, .removeUrlFile, .release]

/-- `is_tunnel_running()`, transcribed: the whole body — the owned
process poll and the `pgrep` probes — runs inside `with _tunnel_lock`. -/
def is_tunnel_running_prog : List Act :=
  [.acquire, .pollOwned, .scanProcessTable, .release]

/-- The boolean `is_tunnel_running` returns; `externalFound` abstracts
the `pgrep` probes for externally started provider processes. -/
def is_tunnel_running_ret (s : Sys) (externalFound : Bool) : Bool :=
  (match s.tunnelProcess with
   | some p => decide (p ∈ s.live)
   | none => false) || externalFound

/-- `api_stop_tunnel` (`POST /api/tunnel/stop`), transcribed: config
write, marker removal, `stop_tunnel()`, best-effort external pkill. -/
def api_stop_tunnel_prog : List Act :=
  [.stopConfigWrite, .removeEnabledMarker] ++ stop_tunnel_prog ++ [.pkillExternal]

/-- `api_start_tunnel` (`POST /api/tunnel/start`) after provider
resolution: nothing at all for the rejected `cloudflare_named`, else
config write, marker creation, `start_tunnel`. -/
def api_start_tunnel_prog (provider : String) (spawn : Option Nat) : List Act :=
  if provider == "cloudflare_named" then []
  else [.startConfigWrite provider, .createEnabledMarker] ++
    start_tunnel_prog provider spawn

/-! ## Sequential semantics of the HTTP handlers -/

/-- The JSON body of `POST /api/tunnel/start`. -/
structure StartReq where
  provider : Option String

/-- `api_start_tunnel`, run without interference: resolve the provider
from the request or the loaded config, reject `cloudflare_named` with
400 and no state change, else persist `enabled=True` and the provider,
create the marker, and run `start_tunnel`; its `False` yields 500.
Returns `none` only if blocked on the lock. -/
def api_start_tunnel (req : StartReq) (spawn : Option Nat) (s : Sys) :
    Option (Nat × Sys) :=
  let config := load_tunnel_config s.fs
  let provider := req.provider.getD config.provider
  if provider == "cloudflare_named" then some (400, s)
  else
    let c2 := { config with enabled := true, provider := provider }
    let s1 : Sys := { s with fs := { s.fs with tunnelConfigFile := some c2 } }
    let s2 : Sys := { s1 with fs := { s1.fs with enabledMarker := true } }
    (runSeq (start_tunnel_prog provider spawn) s2).map fun s3 =>
      (if start_tunnel_ret provider spawn then 200 else 500, s3)

/-- The JSON response of `GET /api/tunnel/status`. -/
structure StatusResp where
  enabled : Bool
  running : Bool
  provider : String
  url : String
  has_token : Bool
deriving DecidableEq, Repr

/-- `api_tunnel_status` (`GET /api/tunnel/status`): load the config,
compute `running`, prefer the URL file's stripped content and fall back
to the config's `tunnel_url` when the file is absent or empty. -/
def api_tunnel_status (s : Sys) (externalFound : Bool) : StatusResp :=
  let config := load_tunnel_config s.fs
  let fileUrl : String :=
    match s.fs.urlFile with
    | some c => pyStrip c
    | none => ""
  let url := if fileUrl = "" then config.tunnel_url else fileUrl
  { enabled := config.enabled,
    running := is_tunnel_running_ret s externalFound,
    provider := config.provider,
    url := url,
    has_token := config.tunnel_token ≠ "" }

/-- The JSON response of `GET /api/config/remote` (the fields the claims
mention). -/
structure RemoteConfigResp where
  tunnel_enabled : Bool
  tunnel_active : Bool
  tunnel_url : Option String
  tunnel_provider : String
deriving DecidableEq, Repr

/-- `get_remote_config` (`GET /api/config/remote`). -/
def get_remote_config (fs : FS) : RemoteConfigResp :=
  let config := load_tunnel_config fs
  let active :=
    config.enabled &&
      ((["localtunnel", "cloudflare_quick"].contains config.provider
          && fs.urlFile.isSome)
        || (config.provider == "cloudflare_named" && config.tunnel_token ≠ ""))
  { tunnel_enabled := config.enabled,
    tunnel_active := active,
    tunnel_url := if config.tunnel_url ≠ "" then some config.tunnel_url else none,
    tunnel_provider := config.provider }

/-! # Claims -/

/-- C5, counterexample.  The claim asserts `provider == cloudflare_named`
iff the stored token is non-empty after every update, and that clearing
the token without specifying a provider reverts the provider to
`localtunnel`.  Both fail: (1) an update supplying
`provider = cloudflare_named` with no token stores `cloudflare_named`
with an empty token; (2) starting from a stored
`cloudflare_named`/`"tok"` config, an update clearing the token and not
specifying a provider leaves the provider as `cloudflare_named`. -/
theorem c5_counterexample :
    ((save_remote_config ⟨none, some "cloudflare_named", none, none⟩
        ⟨none, none, none, false, none, none⟩).tunnelConfigFile.map
        (fun c => (c.provider, c.tunnel_token)))
      = some ("cloudflare_named", "")
    ∧ ((save_remote_config ⟨none, none, none, some ""⟩
        ⟨some ⟨true, "cloudflare_named", "tok", ""⟩, none, none, true, none,
          some "tok"⟩).tunnelConfigFile.map
        (fun c => (c.provider, c.tunnel_token)))
      = some ("cloudflare_named", "") := by
  decide

/-- C5, amended.  One direction of the claimed invariant does hold: after
every `POST /api/config/remote` update, if the stored secret token is
non-empty then the stored provider is `cloudflare_named` (a non-empty
token forces the provider regardless of the provider supplied in the
same update).  The converse fails (see the counterexample): the provider
can be stored as `cloudflare_named` with an empty token, and clearing
the token never reverts the provider to `localtunnel`. -/
theorem c5_token_forces_cloudflare_named (d : UpdateData) (fs : FS)
    (c : TunnelConfig) (h : (save_remote_config d fs).tunnelConfigFile = some c)
    (ht : c.tunnel_token ≠ "") :
    c.provider = "cloudflare_named" := by
  have key : (save_remote_config d fs).tunnelConfigFile
      = some (save_remote_config_update d (load_tunnel_config fs)) := by
    simp only [save_remote_config]
    split
    · split <;> rfl
    · rfl
  rw [key] at h
  have hc := Option.some.inj h
  subst hc
  revert ht
  simp only [save_remote_config_update]
  generalize apply_update_fields d (load_tunnel_config fs) = c4
  intro ht
  by_cases hcond :
      (decide (c4.tunnel_token ≠ "")
        && !(["cloudflare_named"].contains c4.provider)) = true
  · rw [if_pos hcond]
  · rw [if_neg hcond] at ht ⊢
    by_contra hne
    apply hcond
    simp only [List.contains, List.elem, Bool.and_eq_true, decide_eq_true_eq,
      Bool.not_eq_true, Bool.or_false]
    refine ⟨ht, ?_⟩
    cases hb : c4.provider == "cloudflare_named"
    · rfl
    · exact absurd (eq_of_beq hb) hne

/-- C5, witness: a concrete update supplying `provider=localtunnel` and
token `"tok"` stores a non-empty token, and the amended theorem yields
`provider = cloudflare_named` there. -/
theorem c5_witness :
    (save_remote_config ⟨none, some "localtunnel", none, some "tok"⟩
        ⟨none, none, none, false, none, none⟩).tunnelConfigFile
      = some ⟨false, "cloudflare_named", "tok", ""⟩
    ∧ (⟨false, "cloudflare_named", "tok", ""⟩ : TunnelConfig).tunnel_token ≠ ""
    ∧ (⟨false, "cloudflare_named", "tok", ""⟩ : TunnelConfig).provider
        = "cloudflare_named" :=
  ⟨by decide, by decide,
    c5_token_forces_cloudflare_named ⟨none, some "localtunnel", none, some "tok"⟩
      ⟨none, none, none, false, none, none⟩ ⟨false, "cloudflare_named", "tok", ""⟩
      (by decide) (by decide)⟩

/-- C6: a `POST /api/tunnel/start` whose resolved provider (from the
request body, falling back to the loaded config) is `cloudflare_named`
returns HTTP 400 with the system state unchanged — no configuration
write, no enabled marker, no termination of an owned process, no
URL-file change and no spawn happen before the rejection. -/
theorem c6_named_tunnel_rejected_before_side_effects (req : StartReq)
    (spawn : Option Nat) (s : Sys)
    (h : req.provider.getD (load_tunnel_config s.fs).provider
      = "cloudflare_named") :
    api_start_tunnel req spawn s = some (400, s) := by
  simp [api_start_tunnel, h]

/-- C6, witness: a concrete request supplying `cloudflare_named` on a
fresh system is rejected with 400 and the state is unchanged. -/
theorem c6_witness :
    ((⟨some "cloudflare_named"⟩ : StartReq).provider.getD
        (load_tunnel_config ⟨none, none, none, false, none, none⟩).provider
      = "cloudflare_named")
    ∧ api_start_tunnel ⟨some "cloudflare_named"⟩ (some 1)
        ⟨⟨none, none, none, false, none, none⟩, none, [], false, none⟩
      = some (400, ⟨⟨none, none, none, false, none, none⟩, none, [], false, none⟩) :=
  ⟨by decide,
    c6_named_tunnel_rejected_before_side_effects ⟨some "cloudflare_named"⟩
      (some 1) ⟨⟨none, none, none, false, none, none⟩, none, [], false, none⟩
      (by decide)⟩

/-- C7: when the resolved provider passes validation (it is directly
launchable, so not `cloudflare_named`) but spawning the tunnel process
fails (`Popen` raises, modelled by `spawn = none`), the handler returns
HTTP 500 while the config file keeps the already-persisted
`enabled = true` and the resolved provider — the spawn failure rolls
nothing back. -/
theorem c7_spawn_failure_keeps_persisted_state (req : StartReq) (s : Sys)
    (p : String)
    (hres : req.provider.getD (load_tunnel_config s.fs).provider = p)
    (hp : providerCmdSupported p = true)
    (hl : s.lockHeld = false) :
    (api_start_tunnel req none s).map (fun r =>
        (r.1, r.2.fs.tunnelConfigFile.map fun c => (c.enabled, c.provider)))
      = some (500, some (true, p)) := by
  simp only [providerCmdSupported, Bool.or_eq_true, beq_iff_eq] at hp
  rcases hsp : s.tunnelProcess with _ | q
  · rcases hp with rfl | rfl <;>
      simp [api_start_tunnel, hres, start_tunnel_prog, start_tunnel_ret,
        providerCmdSupported, runSeq, applyAct, hl, hsp]
  · by_cases hq : q ∈ s.live
    · rcases hp with rfl | rfl <;>
        simp [api_start_tunnel, hres, start_tunnel_prog, start_tunnel_ret,
          providerCmdSupported, runSeq, applyAct, hl, hsp, hq]
    · rcases hp with rfl | rfl <;>
        simp [api_start_tunnel, hres, start_tunnel_prog, start_tunnel_ret,
          providerCmdSupported, runSeq, applyAct, hl, hsp, hq]

/-- C7, witness: a concrete `localtunnel` start on a fresh system whose
spawn fails yields 500 with `enabled=true, provider=localtunnel`
persisted. -/
theorem c7_witness :
    ((⟨some "localtunnel"⟩ : StartReq).provider.getD
        (load_tunnel_config ⟨none, none, none, false, none, none⟩).provider
      = "localtunnel")
    ∧ providerCmdSupported "localtunnel" = true
    ∧ (api_start_tunnel ⟨some "localtunnel"⟩ none
          ⟨⟨none, none, none, false, none, none⟩, none, [], false, none⟩).map
        (fun r => (r.1, r.2.fs.tunnelConfigFile.map fun c => (c.enabled, c.provider)))
      = some (500, some (true, "localtunnel")) :=
  ⟨by decide, by decide,
    c7_spawn_failure_keeps_persisted_state ⟨some "localtunnel"⟩
      ⟨⟨none, none, none, false, none, none⟩, none, [], false, none⟩
      "localtunnel" (by decide) (by decide) (by decide)⟩

/-- C8: for every output-line sequence, `capture_url` publishes the URL
matched in the first matching line — its effects are exactly one URL-file
write (truncate + flush of that URL) and one config update — reads
exactly the lines up to and including that first match (no subsequent
line, matching or not, is inspected or alters the published value,
which is independent of `post`), and when no line matches it consumes
the whole stream and performs no effect. -/
theorem c8_watcher_publishes_first_match_once (pat : UrlPattern)
    (pre : List String) (l : String) (post : List String) (u : String)
    (hpre : ∀ x ∈ pre, reSearch pat x = none)
    (hl : reSearch pat l = some u) :
    capture_url_scan pat (pre ++ l :: post) = (some u, pre.length + 1)
    ∧ watcher_prog pat (pre ++ l :: post) =
        [.truncUrlFile, .flushUrlFile u, .watcherUpdateConfig u]
    ∧ ∀ lines : List String, (∀ x ∈ lines, reSearch pat x = none) →
        capture_url_scan pat lines = (none, lines.length)
        ∧ watcher_prog pat lines = [] := by
  have scan_eq : ∀ pre2 : List String, (∀ x ∈ pre2, reSearch pat x = none) →
      capture_url_scan pat (pre2 ++ l :: post) = (some u, pre2.length + 1) := by
    intro pre2
    induction pre2 with
    | nil => intro _; simp [capture_url_scan, hl]
    | cons x xs ih =>
        intro hp2
        have hx := hp2 x (by simp)
        have hxs := ih (fun y hy => hp2 y (by simp [hy]))
        simp [capture_url_scan, hx, hxs]
  have no_match : ∀ lines : List String, (∀ x ∈ lines, reSearch pat x = none) →
      capture_url_scan pat lines = (none, lines.length) := by
    intro lines
    induction lines with
    | nil => intro _; simp [capture_url_scan]
    | cons x xs ih =>
        intro hnm
        have hx := hnm x (by simp)
        have hxs := ih (fun y hy => hnm y (by simp [hy]))
        simp [capture_url_scan, hx, hxs]
  refine ⟨scan_eq pre hpre, ?_, fun lines hnm => ⟨no_match lines hnm, ?_⟩⟩
  · simp [watcher_prog, scan_eq pre hpre]
  · simp [watcher_prog, no_match lines hnm]

/-- C8, witness: the spec's example — `"Connecting..."` then
`"your url is: https://abc123.trycloudflare.com"` followed by another
matching line — publishes exactly `https://abc123.trycloudflare.com`
after consuming two lines, unaffected by the later matching line. -/
theorem c8_witness :
    (∀ x ∈ ["Connecting..."], reSearch .cloudflareQuick x = none)
    ∧ reSearch .cloudflareQuick "your url is: https://abc123.trycloudflare.com"
      = some "https://abc123.trycloudflare.com"
    ∧ capture_url_scan .cloudflareQuick
        ["Connecting...", "your url is: https://abc123.trycloudflare.com",
          "https://zzz.trycloudflare.com"]
      = (some "https://abc123.trycloudflare.com", 2) :=
  ⟨by decide, by decide,
    (c8_watcher_publishes_first_match_once .cloudflareQuick ["Connecting..."]
      "your url is: https://abc123.trycloudflare.com"
      ["https://zzz.trycloudflare.com"] "https://abc123.trycloudflare.com"
      (by decide) (by decide)).1⟩

/-- C9: whenever `is_tunnel_enabled` is true — the file
`/data/tunnel/tunnel_config.json` exists with `enabled=true`, or is
absent while the tunnel URL file exists — `require_auth` lets every
request through to the handler: the outcome is `allowed` for every
request (any `X-Ingress-Path` value, any `Authorization` header) and
every token validator, so neither header is required or consulted. -/
theorem c9_tunnel_enabled_bypasses_all_auth (fs : FS) (req : HttpRequest)
    (validate : String → Bool) (h : is_tunnel_enabled fs = true) :
    require_auth req fs validate = .allowed := by
  unfold require_auth
  split
  · rfl
  · simp [h]

/-- C9, witness: with the tunnel-dir config file present and enabled, a
request with no ingress header and no valid token is allowed. -/
theorem c9_witness :
    is_tunnel_enabled ⟨none, none, none, false, some true, none⟩ = true
    ∧ require_auth ⟨none, ""⟩ ⟨none, none, none, false, some true, none⟩
        (fun _ => false) = .allowed :=
  ⟨by decide,
    c9_tunnel_enabled_bypasses_all_auth ⟨none, none, none, false, some true, none⟩
      ⟨none, ""⟩ (fun _ => false) (by decide)⟩

/-- C10, counterexample.  The claim says a URL file that exists and
contains a non-empty string forces `enabled=true`.  The file content
`" "` is a non-empty string, yet `load_tunnel_config` strips it to
empty and returns `enabled=false` (the persisted config says disabled),
and both status endpoints report the tunnel as disabled. -/
theorem c10_counterexample :
    (⟨some ⟨false, "localtunnel", "", ""⟩, none, some " ", false, none,
        none⟩ : FS).urlFile = some " "
    ∧ (" " : String) ≠ ""
    ∧ (load_tunnel_config
        ⟨some ⟨false, "localtunnel", "", ""⟩, none, some " ", false, none,
          none⟩).enabled = false
    ∧ (get_remote_config
        ⟨some ⟨false, "localtunnel", "", ""⟩, none, some " ", false, none,
          none⟩).tunnel_enabled = false
    ∧ (api_tunnel_status
        ⟨⟨some ⟨false, "localtunnel", "", ""⟩, none, some " ", false, none,
          none⟩, none, [], false, none⟩ false).enabled = false := by
  decide

/-- C10, amended: whenever the tunnel URL file exists and its content
strips to a non-empty string, `load_tunnel_config` returns
`enabled=true` and that stripped URL regardless of the enabled flag
persisted in the config file or addon options, and consequently
`GET /api/config/remote` and `GET /api/tunnel/status` report the tunnel
as enabled. -/
theorem c10_nonblank_url_file_forces_enabled (fs : FS) (s : String)
    (tp : Option Nat) (live : List Nat) (lk : Bool)
    (obs : Option (Option String)) (ext : Bool)
    (hf : fs.urlFile = some s) (hs : pyStrip s ≠ "") :
    (load_tunnel_config fs).enabled = true
    ∧ (load_tunnel_config fs).tunnel_url = pyStrip s
    ∧ (get_remote_config fs).tunnel_enabled = true
    ∧ (api_tunnel_status ⟨fs, tp, live, lk, obs⟩ ext).enabled = true := by
  have h1 : (load_tunnel_config fs).enabled = true := by
    simp only [load_tunnel_config, hf]
    rw [if_pos hs]
  have h2 : (load_tunnel_config fs).tunnel_url = pyStrip s := by
    simp only [load_tunnel_config, hf]
    rw [if_pos hs]
  refine ⟨h1, h2, ?_, ?_⟩
  · simp only [get_remote_config]
    exact h1
  · simp only [api_tunnel_status]
    exact h1

/-- C10, witness: a concrete URL file containing
`" https://x.loca.lt "` (stripping to `https://x.loca.lt`) next to a
config file that says disabled. -/
theorem c10_witness :
    (⟨some ⟨false, "localtunnel", "", ""⟩, none, some " https://x.loca.lt ",
        false, none, none⟩ : FS).urlFile = some " https://x.loca.lt "
    ∧ pyStrip " https://x.loca.lt " ≠ ""
    ∧ (load_tunnel_config
        ⟨some ⟨false, "localtunnel", "", ""⟩, none, some " https://x.loca.lt ",
          false, none, none⟩).enabled = true :=
  ⟨by decide, by decide,
    (c10_nonblank_url_file_forces_enabled
      ⟨some ⟨false, "localtunnel", "", ""⟩, none, some " https://x.loca.lt ",
        false, none, none⟩ " https://x.loca.lt " none [] false none false
      (by decide) (by decide)).1⟩

/-- C1, counterexample.  The claim says a watcher of a superseded
process checks that its handle is still the current owned process
before publishing, so a late match is discarded.  In this legal
interleaving a `localtunnel` Start (pid 1) is fully superseded by a
`cloudflare_quick` Start (pid 2) — which terminates pid 1 and clears the
URL file — and only then does pid 1's watcher publish its matched URL:
the publish goes through unconditionally, leaving the superseded URL in
the URL file and the config store while the current owned process is
pid 2. -/
theorem c1_counterexample :
    (runSched [0, 0, 0, 0, 0, 0, 0, 0, 0, 0, 0, 0, 1, 1, 1]
        [ start_tunnel_prog "localtunnel" (some 1) ++
            start_tunnel_prog "cloudflare_quick" (some 2),
          watcher_prog .localtunnel ["your url is https://old.loca.lt"],
          watcher_prog .cloudflareQuick [] ]
        ⟨⟨none, none, none, false, none, none⟩, none, [], false, none⟩).map
        (fun s => (s.tunnelProcess, s.fs.urlFile,
          s.fs.tunnelConfigFile.map TunnelConfig.tunnel_url))
      = some (some 2, some "https://old.loca.lt", some "https://old.loca.lt") := by
  decide

/-- C1, amended: `capture_url` performs no handle-identity check before
publishing, so a late URL match found by a superseded watcher is NOT
discarded: whatever URL the old process's output matches, scheduling the
old watcher's publish after the superseding Start completes leaves that
stale URL in the URL file while the newer Start's process (pid 2) is the
current owned process. -/
theorem c1_stale_watcher_publish_not_discarded (lines : List String)
    (u : String) (h : (capture_url_scan .localtunnel lines).1 = some u) :
    (runSched [0, 0, 0, 0, 0, 0, 0, 0, 0, 0, 0, 0, 1, 1, 1]
        [ start_tunnel_prog "localtunnel" (some 1) ++
            start_tunnel_prog "cloudflare_quick" (some 2),
          watcher_prog .localtunnel lines,
          watcher_prog .cloudflareQuick [] ]
        ⟨⟨none, none, none, false, none, none⟩, none, [], false, none⟩).map
        (fun s => (s.tunnelProcess, s.fs.urlFile))
      = some (some 2, some u) := by
  have hw : watcher_prog .localtunnel lines =
      [.truncUrlFile, .flushUrlFile u, .watcherUpdateConfig u] := by
    simp [watcher_prog, h]
  rw [hw]
  rfl

/-- C1, witness for the amended theorem at the concrete stale output
line `"your url is https://old.loca.lt"`. -/
theorem c1_witness :
    (capture_url_scan .localtunnel ["your url is https://old.loca.lt"]).1
      = some "https://old.loca.lt"
    ∧ (runSched [0, 0, 0, 0, 0, 0, 0, 0, 0, 0, 0, 0, 1, 1, 1]
        [ start_tunnel_prog "localtunnel" (some 1) ++
            start_tunnel_prog "cloudflare_quick" (some 2),
          watcher_prog .localtunnel ["your url is https://old.loca.lt"],
          watcher_prog .cloudflareQuick [] ]
        ⟨⟨none, none, none, false, none, none⟩, none, [], false, none⟩).map
        (fun s => (s.tunnelProcess, s.fs.urlFile))
      = some (some 2, some "https://old.loca.lt") :=
  ⟨by decide,
    c1_stale_watcher_publish_not_discarded
      ["your url is https://old.loca.lt"] "https://old.loca.lt" (by decide)⟩

/-- C2, counterexample.  The claim says every URL-file write is atomic,
so a concurrent reader observes no value, the prior complete value, or
the complete new URL.  The write is a plain `open(..., 'w')` followed by
`write`: with the prior URL `https://prior.loca.lt` on file and the
watcher about to publish `https://new.loca.lt`, a reader scheduled
between the open (which truncates) and the flush observes a present
file whose content is the empty string — a truncated value that is
neither absent, the prior value, nor the new value. -/
theorem c2_counterexample :
    (runSched [0, 1]
        [watcher_prog .localtunnel ["https://new.loca.lt"], [Act.readUrlFile]]
        ⟨⟨none, none, some "https://prior.loca.lt", false, none, none⟩,
          some 1, [1], false, none⟩).map Sys.observed
      = some (some (some ""))
    ∧ ("" : String) ≠ "https://prior.loca.lt"
    ∧ ("" : String) ≠ "https://new.loca.lt" := by
  decide

/-- C2, amended: the URL-file write in `capture_url` is a non-atomic
truncate-then-flush (`open(TUNNEL_URL_FILE, 'w')` then `f.write(url)`):
for every prior file content and every output whose first match is `u`,
a reader scheduled between the two steps observes a present but empty
file — neither the prior value nor the new URL.  (Readers in this
codebase strip the content and treat empty as missing.) -/
theorem c2_truncate_window_observable (prior : String) (lines : List String)
    (u : String) (h : (capture_url_scan .localtunnel lines).1 = some u) :
    (runSched [0, 1]
        [watcher_prog .localtunnel lines, [Act.readUrlFile]]
        ⟨⟨none, none, some prior, false, none, none⟩, some 1, [1], false,
          none⟩).map Sys.observed = some (some (some "")) := by
  have hw : watcher_prog .localtunnel lines =
      [.truncUrlFile, .flushUrlFile u, .watcherUpdateConfig u] := by
    simp [watcher_prog, h]
  rw [hw]
  rfl

/-- C2, witness for the amended theorem at concrete prior and new
URLs. -/
theorem c2_witness :
    (capture_url_scan .localtunnel ["https://new.loca.lt"]).1
      = some "https://new.loca.lt"
    ∧ (runSched [0, 1]
        [watcher_prog .localtunnel ["https://new.loca.lt"], [Act.readUrlFile]]
        ⟨⟨none, none, some "https://prior.loca.lt", false, none, none⟩,
          some 1, [1], false, none⟩).map Sys.observed = some (some (some "")) :=
  ⟨by decide,
    c2_truncate_window_observable "https://prior.loca.lt"
      ["https://new.loca.lt"] "https://new.loca.lt" (by decide)⟩

/-- C3, counterexample.  The claim says Start then Stop leaves
`enabled=false`, the URL cleared, the URL file removed and no owned
process live, with no race leaving stale state.  In this legal
interleaving the watcher matched its URL before the Stop but publishes
after the Stop completes: the URL file is re-created with the stale URL
and the config file ends re-enabled (`enabled=true`) with the stale
URL stored. -/
theorem c3_counterexample :
    (runSched (List.replicate 15 0 ++ [1, 1, 1])
        [ api_start_tunnel_prog "localtunnel" (some 1) ++ api_stop_tunnel_prog,
          watcher_prog .localtunnel ["https://old.loca.lt"] ]
        ⟨⟨none, none, none, false, none, none⟩, none, [], false, none⟩).map
        (fun s => (s.fs.urlFile,
          s.fs.tunnelConfigFile.map fun c => (c.enabled, c.tunnel_url)))
      = some (some "https://old.loca.lt", some (true, "https://old.loca.lt")) := by
  decide

set_option maxHeartbeats 2000000 in
/-- C3, amended: `Start(P)` followed by `Stop()` leaves `enabled=false`,
`tunnel_url` cleared, the enabled marker and URL file removed, and no
owned process — for every launchable provider, every initial file
system and every process output — provided the watcher's publish steps
(all of them or none) happen before the Stop; a watcher that publishes
after the Stop re-creates stale state (see the counterexample). -/
theorem c3_start_stop_without_interleaving_clears_state (fs0 : FS)
    (p : String) (lines : List String)
    (hp : p = "localtunnel" ∨ p = "cloudflare_quick") :
    (runSched
        (List.replicate 8 0
          ++ List.replicate (watcher_prog (providerPattern p) lines).length 1
          ++ List.replicate 7 0)
        [ api_start_tunnel_prog p (some 1) ++ api_stop_tunnel_prog,
          watcher_prog (providerPattern p) lines ]
        ⟨fs0, none, [], false, none⟩).map
        (fun s => (s.tunnelProcess, s.fs.urlFile, s.fs.enabledMarker,
          s.fs.tunnelConfigFile.map fun c => (c.enabled, c.tunnel_url)))
      = some (none, none, false, some (false, "")) := by
  rcases hp with rfl | rfl
  · rcases h : (capture_url_scan (providerPattern "localtunnel") lines).1 with _ | u
    · have hwp : watcher_prog (providerPattern "localtunnel") lines = [] := by
        simp [watcher_prog, h]
      rw [hwp]
      rfl
    · have hwp : watcher_prog (providerPattern "localtunnel") lines =
          [.truncUrlFile, .flushUrlFile u, .watcherUpdateConfig u] := by
        simp [watcher_prog, h]
      rw [hwp]
      rfl
  · rcases h : (capture_url_scan (providerPattern "cloudflare_quick") lines).1 with _ | u
    · have hwp : watcher_prog (providerPattern "cloudflare_quick") lines = [] := by
        simp [watcher_prog, h]
      rw [hwp]
      rfl
    · have hwp : watcher_prog (providerPattern "cloudflare_quick") lines =
          [.truncUrlFile, .flushUrlFile u, .watcherUpdateConfig u] := by
        simp [watcher_prog, h]
      rw [hwp]
      rfl

/-- C3, witness for the amended theorem: a concrete `localtunnel`
Start/Stop pair with the watcher publishing in between leaves the clean
stopped state. -/
theorem c3_witness :
    (("localtunnel" : String) = "localtunnel"
      ∨ ("localtunnel" : String) = "cloudflare_quick")
    ∧ (runSched
        (List.replicate 8 0
          ++ List.replicate
              (watcher_prog (providerPattern "localtunnel")
                ["https://old.loca.lt"]).length 1
          ++ List.replicate 7 0)
        [ api_start_tunnel_prog "localtunnel" (some 1) ++ api_stop_tunnel_prog,
          watcher_prog (providerPattern "localtunnel") ["https://old.loca.lt"] ]
        ⟨⟨none, none, none, false, none, none⟩, none, [], false, none⟩).map
        (fun s => (s.tunnelProcess, s.fs.urlFile, s.fs.enabledMarker,
          s.fs.tunnelConfigFile.map fun c => (c.enabled, c.tunnel_url)))
      = some (none, none, false, some (false, "")) :=
  ⟨Or.inl rfl,
    c3_start_stop_without_interleaving_clears_state
      ⟨none, none, none, false, none, none⟩ "localtunnel"
      ["https://old.loca.lt"] (Or.inl rfl)⟩

/-- C4, counterexample.  The claim says `Status` never acquires and
never blocks on the lifecycle lock, including during the owned-process
liveness check.  In fact the whole body of `is_tunnel_running` runs
inside `with _tunnel_lock` — the same lock `start_tunnel` and
`stop_tunnel` take — and with the lock held by an in-flight Start/Stop
its first action cannot step (the run reports blocked). -/
theorem c4_counterexample :
    Act.acquire ∈ is_tunnel_running_prog
    ∧ Act.acquire ∈ start_tunnel_prog "localtunnel" (some 1)
    ∧ Act.acquire ∈ stop_tunnel_prog
    ∧ runSched [0] [is_tunnel_running_prog]
        ⟨⟨none, none, none, false, none, none⟩, none, [], true, none⟩ = none := by
  decide

/-- C4, amended: `is_tunnel_running` — the liveness check `Status`
performs — acquires `_tunnel_lock`, the same exclusive lock serializing
`start_tunnel` and `stop_tunnel`, and in every state where that lock is
held by an in-flight Start or Stop its first action blocks. -/
theorem c4_status_liveness_check_takes_lock (s : Sys)
    (h : s.lockHeld = true) :
    Act.acquire ∈ is_tunnel_running_prog
    ∧ runSched [0] [is_tunnel_running_prog] s = none := by
  refine ⟨by decide, ?_⟩
  simp [runSched, stepThread, is_tunnel_running_prog, applyAct, h]

/-- C4, witness for the amended theorem at a concrete state with the
lock held. -/
theorem c4_witness :
    (⟨⟨none, none, none, false, none, none⟩, none, [], true, none⟩ : Sys).lockHeld
      = true
    ∧ (Act.acquire ∈ is_tunnel_running_prog
      ∧ runSched [0] [is_tunnel_running_prog]
          ⟨⟨none, none, none, false, none, none⟩, none, [], true, none⟩ = none) :=
  ⟨rfl, c4_status_liveness_check_takes_lock
    ⟨⟨none, none, none, false, none, none⟩, none, [], true, none⟩ rfl⟩

end PrintApi
